import Mathlib

/-!
Shallow embedding of the client-side state-synchronization layer of the
`media-controller` repository (a socket.io media remote-control client).

The repository contains two generations of the client:

* the legacy generation: `src/client/src/App.tsx` together with
  `src/client/src/lib/socket-io.ts` (wire codes `media_details`,
  `track_progress`, `seek`, ...); and
* the current generation: the components in `src/unnamed/part_000`
  (`ProgressBar`), `src/unnamed/part_003` (`App`), and the `PlayerControls`
  component found in `src/client/src/hooks/use-inactivity-tracker.ts`
  (inbound events `track_info`, `track_controls`, `track_timeline`, whose
  payload shapes are given by the repository README, `src/unnamed/part_004`).

Pure functions become Lean functions; React `useState` state becomes explicit
state records, and each event handler becomes a state-transition function.
Outbound `socket.emit(code, payload)` calls are collected into explicit
emission lists (`List Emit`), so "emits exactly one event" is the length of
that list.
-/

/-- Repeat-mode enumeration `AutoRepeatMode` from `lib/socket-io.ts`
(wire values `"none" | "track" | "list"`). -/
inductive AutoRepeatMode
  | None
  | Track
  | List
deriving DecidableEq, Repr

namespace events

/-- Wire code `GET_MEDIA_DETAILS` from the `events` table in `lib/socket-io.ts`. -/
def GET_MEDIA_DETAILS : String := "get_media_details"

/-- Wire code `TOGGLE_PLAY_PAUSE` from the `events` table in `lib/socket-io.ts`. -/
def TOGGLE_PLAY_PAUSE : String := "toggle_play_pause"

/-- Wire code `NEXT_TRACK` from the `events` table in `lib/socket-io.ts`. -/
def NEXT_TRACK : String := "next_track"

/-- Wire code `PREVIOUS_TRACK` from the `events` table in `lib/socket-io.ts`. -/
def PREVIOUS_TRACK : String := "previous_track"

/-- Wire code `SEEK` from the `events` table in `lib/socket-io.ts`
(both copies of the table in that file carry the value `"seek"`). -/
def SEEK : String := "seek"

/-- Wire code `TOGGLE_SHUFFLE` from the `events` table in `lib/socket-io.ts`. -/
def TOGGLE_SHUFFLE : String := "toggle_shuffle"

/-- Wire code `SET_REPEAT_MODE` from the `events` table in `lib/socket-io.ts`. -/
def SET_REPEAT_MODE : String := "set_repeat_mode"

/-- Wire code `MEDIA_CHANGED` from the `events` table in `lib/socket-io.ts`. -/
def MEDIA_CHANGED : String := "media_changed"

/-- Wire code `TRACK_PROGRESS` from the `events` table in `lib/socket-io.ts`. -/
def TRACK_PROGRESS : String := "track_progress"

/-- Wire code `MEDIA_DETAILS` from the `events` table in `lib/socket-io.ts`. -/
def MEDIA_DETAILS : String := "media_details"

end events

/-- Payload attached to an outbound `socket.emit` call: `null` for the
payload-free intents, a `position` record for seek, a mode for
`set_repeat_mode`. -/
inductive EmitPayload
  | null
  | seekPos (position : Nat)
  | repeatMode (mode : AutoRepeatMode)
deriving DecidableEq, Repr

/-- One outbound `socket.emit(code, payload)` call. -/
structure Emit where
  code : String
  payload : EmitPayload
deriving DecidableEq, Repr

/-- Number of emitted events in `es` carrying the wire code `code`. -/
def countEvent (code : String) (es : List Emit) : Nat :=
  es.countP (fun e => e.code == code)

namespace IOModel

/-- Emissions performed by `IO.togglePlayPause` (`lib/socket-io.ts`):
one unconditional `socket.emit(events.TOGGLE_PLAY_PAUSE)`. -/
def togglePlayPause : List Emit := [⟨events.TOGGLE_PLAY_PAUSE, EmitPayload.null⟩]

/-- Emissions performed by `IO.nextTrack` (`lib/socket-io.ts`):
one unconditional `socket.emit(events.NEXT_TRACK)`. -/
def nextTrack : List Emit := [⟨events.NEXT_TRACK, EmitPayload.null⟩]

/-- Emissions performed by `IO.previousTrack` (`lib/socket-io.ts`):
one unconditional `socket.emit(events.PREVIOUS_TRACK)`. -/
def previousTrack : List Emit := [⟨events.PREVIOUS_TRACK, EmitPayload.null⟩]

/-- Emissions performed by `IO.toggleShuffle` (`lib/socket-io.ts`):
one unconditional `socket.emit(events.TOGGLE_SHUFFLE)`. -/
def toggleShuffle : List Emit := [⟨events.TOGGLE_SHUFFLE, EmitPayload.null⟩]

/-- Emissions performed by `IO.setRepeatMode(mode)` (`lib/socket-io.ts`):
one unconditional `socket.emit(events.SET_REPEAT_MODE, mode)`. -/
def setRepeatMode (mode : AutoRepeatMode) : List Emit :=
  [⟨events.SET_REPEAT_MODE, EmitPayload.repeatMode mode⟩]

/-- Emissions performed by `IO.seek(position)` (`lib/socket-io.ts`):
one unconditional `socket.emit(events.SEEK, \x7b position \x7d)`. -/
def seek (position : Nat) : List Emit := [⟨events.SEEK, EmitPayload.seekPos position⟩]

/-- Emissions performed by `IO.getMediaDetails` (`lib/socket-io.ts`), and by
the direct `io.emit(events.GET_MEDIA_DETAILS)` call in `App.tsx`. -/
def getMediaDetails : List Emit := [⟨events.GET_MEDIA_DETAILS, EmitPayload.null⟩]

end IOModel

/-- `TrackInfo` payload of the `track_info` push, as defined in the repository
README (`src/unnamed/part_004`) and consumed by `App` in
`src/unnamed/part_003`: title, artist, optional album, duration in
milliseconds, thumbnail, and an accent hue. -/
structure TrackInfo where
  title : String
  artist : String
  album : Option String
  duration : Nat
  thumbnail : String
  accent_color : Nat
deriving DecidableEq, Repr

/-- `TrackControls` payload of the `track_controls` push, as defined in the
repository README (`src/unnamed/part_004`) and consumed by `PlayerControls`
in `src/client/src/hooks/use-inactivity-tracker.ts`: five availability flags
plus three value fields. -/
structure TrackControls where
  shuffle_enabled : Bool
  auto_repeat_mode_enabled : Bool
  next_enabled : Bool
  prev_enabled : Bool
  play_pause_enabled : Bool
  shuffle : Bool
  auto_repeat_mode : AutoRepeatMode
  playing : Bool
deriving DecidableEq, Repr

/-- `TrackTimeline` payload of the `track_timeline` push, as defined in the
repository README (`src/unnamed/part_004`) and consumed by `ProgressBar` in
`src/unnamed/part_000`: the current progress in milliseconds. -/
structure TrackTimeline where
  progress : Nat
deriving DecidableEq, Repr

/-- Local state of the `ProgressBar` component (`src/unnamed/part_000`):
`useState` hooks `progress` (the displayed position) and `seeking`
(the gesture-in-progress flag). -/
structure ProgressBarState where
  progress : Nat
  seeking : Bool
deriving DecidableEq, Repr

namespace ProgressBar

/-- Handler `onTrackTimeline` of `ProgressBar` (`src/unnamed/part_000`):
`if (seeking) return false; setProgress(timeline.progress);`.  The effect
re-registers the handler whenever `seeking` changes, so the handler always
reads the current `seeking` flag. -/
def onTrackTimeline (s : ProgressBarState) (timeline : TrackTimeline) : ProgressBarState :=
  if s.seeking then s else { s with progress := timeline.progress }

/-- The Slider `onValueChange` callback of `ProgressBar`
(`src/unnamed/part_000`): `setSeeking(true); setProgress(newVal);`. -/
def onValueChange (s : ProgressBarState) (newVal : Nat) : ProgressBarState :=
  { s with seeking := true, progress := newVal }

/-- `handleSeek` of `ProgressBar` (`src/unnamed/part_000`):
`setSeeking(false); io.seek(newVal);` — the returned list holds the
emissions performed by this single invocation. -/
def handleSeek (s : ProgressBarState) (newVal : Nat) : ProgressBarState × List Emit :=
  ({ s with seeking := false }, IOModel.seek newVal)

/-- The Slider `onValueCommit` callback is `handleSeek`, and the Slider is a
controlled component (`value=[progress]`), so the committed value it passes
is the current `progress` state. -/
def onValueCommit (s : ProgressBarState) : ProgressBarState × List Emit :=
  handleSeek s s.progress

/-- The displayed timeline position of `ProgressBar`: both the Slider
(`value=[progress]`) and the formatted text read the `progress` state. -/
def displayedValue (s : ProgressBarState) : Nat := s.progress

end ProgressBar

/-- Order of repeat modes when cycling, `REPEAT_MODE_CYCLE` in
`src/client/src/hooks/use-inactivity-tracker.ts`. -/
def REPEAT_MODE_CYCLE : List AutoRepeatMode :=
  [AutoRepeatMode.None, AutoRepeatMode.List, AutoRepeatMode.Track]

/-- The pure successor computation performed inline by `cycleRepeatMode`
(`use-inactivity-tracker.ts`): `REPEAT_MODE_CYCLE[(indexOf(mode) + 1) %
REPEAT_MODE_CYCLE.length]`.  The index is always in range (it is taken
modulo the length), so the `getD` default is never reached. -/
def nextMode (m : AutoRepeatMode) : AutoRepeatMode :=
  REPEAT_MODE_CYCLE.getD ((REPEAT_MODE_CYCLE.indexOf m + 1) % REPEAT_MODE_CYCLE.length)
    AutoRepeatMode.None

/-- Local state of the current-generation `PlayerControls` component
(`use-inactivity-tracker.ts`): the `controls` store,
`useState<TrackControls | null>(null)`, holding the last `track_controls`
push. -/
structure PlayerControlsState where
  controls : Option TrackControls
deriving DecidableEq, Repr

namespace PlayerControls

/-- The `track_controls` handler of `PlayerControls`
(`use-inactivity-tracker.ts`): `socket.on(events.TRACK_CONTROLS,
setControls)` — a full replacement of the store with the pushed payload. -/
def onTrackControls (_s : PlayerControlsState) (c : TrackControls) : PlayerControlsState :=
  { controls := some c }

/-- `cycleRepeatMode` of `PlayerControls` (`use-inactivity-tracker.ts`):
`if (!controls) return;` then compute the successor mode from
`REPEAT_MODE_CYCLE` and call `io.setRepeatMode(nextMode)`.  It never calls
`setControls`, so the returned state is the input state. -/
def cycleRepeatMode (s : PlayerControlsState) : PlayerControlsState × List Emit :=
  match s.controls with
  | none => (s, [])
  | some controls =>
      let idx := REPEAT_MODE_CYCLE.indexOf controls.auto_repeat_mode
      let nextIdx := (idx + 1) % REPEAT_MODE_CYCLE.length
      (s, IOModel.setRepeatMode (REPEAT_MODE_CYCLE.getD nextIdx AutoRepeatMode.None))

/-- The repeat mode shown by the UI: `REPEAT_MODE_ICONS[controls.auto_repeat_mode]`
when a snapshot exists. -/
def displayedRepeatMode (s : PlayerControlsState) : Option AutoRepeatMode :=
  s.controls.map TrackControls.auto_repeat_mode

end PlayerControls

/-- Which control buttons the `PlayerControls` JSX mounts: each button is
guarded by its availability flag (`controls.shuffle_enabled && <Button ...>`
and so on). -/
structure RenderedControls where
  shuffleShown : Bool
  prevShown : Bool
  playPauseShown : Bool
  nextShown : Bool
  repeatShown : Bool
deriving DecidableEq, Repr

namespace PlayerControls

/-- The render function of `PlayerControls` (`use-inactivity-tracker.ts`):
`if (!controls) return null; ... if (!active) return null;` and then one
button per control, each mounted only when its availability flag is true. -/
def render (active : Bool) (s : PlayerControlsState) : Option RenderedControls :=
  match s.controls with
  | none => none
  | some c =>
      if active then
        some ⟨c.shuffle_enabled, c.prev_enabled, c.play_pause_enabled,
              c.next_enabled, c.auto_repeat_mode_enabled⟩
      else none

end PlayerControls

/-- State owned by the current-generation `App` component
(`src/unnamed/part_003`): the `track` store
(`useState<TrackInfo | null>(null)`), the CSS custom property
`--primary-hue` written by `updatePrimaryColorHue`, and the child
`ProgressBar` state. -/
structure AppState where
  track : Option TrackInfo
  primaryHue : Option Nat
  progressBar : ProgressBarState
deriving DecidableEq, Repr

namespace App

/-- The `track_info` handler of `App` (`src/unnamed/part_003`):
`updatePrimaryColorHue(track.accent_color); setTrack(track);` — a full
replacement of the `track` store. -/
def onTrackInfo (s : AppState) (track : TrackInfo) : AppState :=
  { s with primaryHue := some track.accent_color, track := some track }

/-- A `track_timeline` push reaches only the `ProgressBar` handler
(`src/unnamed/part_000`); `App` itself registers no handler for it. -/
def onTrackTimeline (s : AppState) (timeline : TrackTimeline) : AppState :=
  { s with progressBar := ProgressBar.onTrackTimeline s.progressBar timeline }

/-- The `duration` prop that `App` passes to `ProgressBar`
(`duration=\x7btrack.duration\x7d` in `src/unnamed/part_003`). -/
def durationProp (s : AppState) : Option Nat :=
  s.track.map TrackInfo.duration

/-- Events the socket can deliver to the current-generation `App` session:
transport-level connection transitions and `track_info` pushes. -/
inductive Inbound
  | connected
  | disconnected
  | track_info (t : TrackInfo)

/-- Emissions performed by the handlers the current-generation `App` mount
effect registers (`src/unnamed/part_003`): only
`socket.on(events.TRACK_INFO, ...)` is registered, and that handler
(`updatePrimaryColorHue` + `setTrack`) emits nothing; no handler is
registered for transport connects or disconnects. -/
def handlerEmits : Inbound → List Emit
  | Inbound.connected => []
  | Inbound.disconnected => []
  | Inbound.track_info _ => []

/-- All emissions of one mounted current-generation `App` session
(`src/unnamed/part_003`): the mount effect only constructs
`new IO("http://192.168.0.105:3000")` and registers the `track_info`
handler — it emits nothing — followed by the handler emissions for the
inbound stream, in arrival order. -/
def sessionEmits (inbound : List Inbound) : List Emit :=
  inbound.foldr (fun e acc => handlerEmits e ++ acc) []

end App

namespace AppTsx

/-- The local `TrackInfo` type of the legacy `App.tsx` (lines 21-30). -/
structure TrackInfo where
  title : String
  artist : String
  album : Option String
  duration : Nat
  thumbnail : String
  is_playing : Bool
  shuffle : Bool
  auto_repeat_mode : AutoRepeatMode
deriving DecidableEq, Repr

/-- `repeat_mode_cycle` of the legacy `App.tsx` (lines 64-68). -/
def repeat_mode_cycle : List AutoRepeatMode :=
  [AutoRepeatMode.None, AutoRepeatMode.List, AutoRepeatMode.Track]

/-- `cycleRepeatMode` of the legacy `App.tsx` (lines 131-139):
`const currentMode = track?.auto_repeat_mode; if (!currentMode) return;`
(when `track` is `null` the optional chain yields `undefined`, which is
falsy, so the function returns before computing a successor), then
`setRepeatMode(repeat_mode_cycle[(indexOf(currentMode) + 1) %
repeat_mode_cycle.length])`. -/
def cycleRepeatMode (track : Option TrackInfo) : List Emit :=
  match track with
  | none => []
  | some t =>
      IOModel.setRepeatMode
        (repeat_mode_cycle.getD
          ((repeat_mode_cycle.indexOf t.auto_repeat_mode + 1) % repeat_mode_cycle.length)
          AutoRepeatMode.None)

/-- Events the socket can deliver to a legacy `App.tsx` session:
transport-level connection transitions and `media_details` pushes. -/
inductive Inbound
  | connected
  | disconnected
  | media_details (t : TrackInfo)

/-- Emissions performed by the handlers the legacy `App.tsx` connection
effect registers (lines 99-109): only `io.on(events.MEDIA_DETAILS,
setTrack)` is registered, and `setTrack` emits nothing; no handler is
registered for transport connects or disconnects, so a reconnect triggers
no application code. -/
def handlerEmits : Inbound → List Emit
  | Inbound.connected => []
  | Inbound.disconnected => []
  | Inbound.media_details _ => []

/-- All emissions of one mounted legacy `App.tsx` session (lines 99-109):
the mount effect runs `io.emit(events.GET_MEDIA_DETAILS)` exactly once,
followed by the handler emissions for the inbound stream, in arrival
order. -/
def sessionEmits (inbound : List Inbound) : List Emit :=
  IOModel.getMediaDetails ++ inbound.foldr (fun e acc => handlerEmits e ++ acc) []

end AppTsx

/-- State of the `useInactivityTracker` hook
(`src/client/src/hooks/use-inactivity-tracker.ts`): the `active` flag
(`useState(true)`) and the deadline of the armed `setTimeout`, if one is
pending (`some d` means the pending timer fires at absolute time `d`). -/
structure InactivityState where
  active : Bool
  deadline : Option Nat
deriving DecidableEq, Repr

/-- `resetTimer` of `useInactivityTracker`, invoked at time `t` with timeout
`T`: `clearTimeout(inactivityTimer); setActive(true); inactivityTimer =
setTimeout(..., timeout);` — the previous pending timer (if any) is
discarded and a fresh one is armed for `t + T`. -/
def resetTimer (T t : Nat) (_s : InactivityState) : InactivityState :=
  { active := true, deadline := some (t + T) }

/-- State of `useInactivityTracker` right after mounting at time `t0`:
`useState(true)` followed by the unconditional `resetTimer()` call in the
effect body. -/
def inactivityInit (T t0 : Nat) : InactivityState :=
  resetTimer T t0 { active := true, deadline := none }

/-- Events driving `useInactivityTracker`: a qualifying interaction
(`mousedown`, `mousemove`, `keydown`, `touchstart`, `scroll`) at time `t`,
or the pending timeout firing at time `t`. -/
inductive InactivityEvent
  | input (t : Nat)
  | elapse (t : Nat)

/-- One step of `useInactivityTracker`: every qualifying interaction runs
`resetTimer`; the timeout callback (`setActive(false)`) runs only if the
armed timer is still pending at its deadline (a cleared timeout never
fires), after which that timer is spent. -/
def inactivityStep (T : Nat) (s : InactivityState) : InactivityEvent → InactivityState
  | InactivityEvent.input t => resetTimer T t s
  | InactivityEvent.elapse t =>
      if s.deadline = some t then { active := false, deadline := none } else s

/-- A disabled controls snapshot: every availability flag false. -/
def controlsAllDisabled : TrackControls :=
  ⟨false, false, false, false, false, false, AutoRepeatMode.None, false⟩

/-- An enabled controls snapshot used to instantiate theorems. -/
def sampleControls : TrackControls :=
  ⟨true, true, true, true, true, false, AutoRepeatMode.None, true⟩

/-- A concrete `track_info` payload used to instantiate theorems. -/
def sampleTrack : TrackInfo :=
  ⟨"Song", "Artist", none, 180000, "data:image/jpeg;base64", 200⟩

/-- Helper: a `track_timeline` push is a no-op on a `ProgressBar` state whose
gesture flag is set, hence any sequence of pushes is. -/
theorem foldl_onTrackTimeline_of_seeking (s : ProgressBarState) (h : s.seeking = true)
    (ps : List TrackTimeline) : ps.foldl ProgressBar.onTrackTimeline s = s := by
  induction ps with
  | nil => rfl
  | cons t ts ih =>
      have hstep : ProgressBar.onTrackTimeline s t = s := by
        simp [ProgressBar.onTrackTimeline, h]
      rw [List.foldl_cons, hstep, ih]

/-- C1: while a seek gesture is in progress, any sequence of `track_timeline`
pushes leaves the displayed position equal to the gesture's override value
and leaves the gesture flag set; and a single push changes the displayed
value to the pushed progress exactly when the gesture flag is down,
otherwise the display keeps reading the local override. -/
theorem trackTimeline_pushes_never_override_gesture :
    (∀ (s : ProgressBarState) (v : Nat) (ps : List TrackTimeline),
        ProgressBar.displayedValue
            (ps.foldl ProgressBar.onTrackTimeline (ProgressBar.onValueChange s v)) = v ∧
        (ps.foldl ProgressBar.onTrackTimeline (ProgressBar.onValueChange s v)).seeking = true) ∧
    (∀ (s : ProgressBarState) (t : TrackTimeline),
        ProgressBar.displayedValue (ProgressBar.onTrackTimeline s t) =
          if s.seeking then ProgressBar.displayedValue s else t.progress) := by
  constructor
  · intro s v ps
    rw [foldl_onTrackTimeline_of_seeking (ProgressBar.onValueChange s v) rfl ps]
    exact ⟨rfl, rfl⟩
  · intro s t
    by_cases h : s.seeking = true
    · simp [ProgressBar.onTrackTimeline, ProgressBar.displayedValue, h]
    · have h' : s.seeking = false := by
        cases hb : s.seeking
        · rfl
        · exact absurd hb h
      simp [ProgressBar.onTrackTimeline, ProgressBar.displayedValue, h']

/-- C2 counterexample: committing the gesture at override 7000 emits exactly
one event, and its wire code is `"seek"` (the value of `events.SEEK` in
`lib/socket-io.ts`), not `"seek_track"` — so zero `seek_track` events are
emitted, refuting "emits exactly one `seek_track` event". -/
theorem seek_commit_event_code_is_seek_not_seek_track :
    (ProgressBar.onValueCommit ⟨7000, true⟩).2 = [⟨"seek", EmitPayload.seekPos 7000⟩] ∧
    (ProgressBar.onValueCommit ⟨7000, true⟩).2.length = 1 ∧
    countEvent "seek_track" (ProgressBar.onValueCommit ⟨7000, true⟩).2 = 0 ∧
    events.SEEK = "seek" ∧ events.SEEK ≠ "seek_track" := by
  refine ⟨rfl, rfl, ?_, rfl, ?_⟩ <;> decide

/-- C2 (amended): after beginning a gesture at value `v` and any sequence of
`track_timeline` pushes, committing the gesture emits exactly one seek
event — wire code `events.SEEK` — whose position payload is `v`, the last
override value, and the same invocation clears the gesture flag, so the
very next authoritative push is accepted again without waiting. -/
theorem seek_commit_emits_once_with_last_override :
    ∀ (s : ProgressBarState) (v : Nat) (ps : List TrackTimeline),
      (ProgressBar.onValueCommit
          (ps.foldl ProgressBar.onTrackTimeline (ProgressBar.onValueChange s v))).2 =
        [⟨events.SEEK, EmitPayload.seekPos v⟩] ∧
      (ProgressBar.onValueCommit
          (ps.foldl ProgressBar.onTrackTimeline (ProgressBar.onValueChange s v))).2.length = 1 ∧
      (ProgressBar.onValueCommit
          (ps.foldl ProgressBar.onTrackTimeline (ProgressBar.onValueChange s v))).1.seeking
        = false ∧
      (∀ t : TrackTimeline,
          ProgressBar.onTrackTimeline
            (ProgressBar.onValueCommit
              (ps.foldl ProgressBar.onTrackTimeline (ProgressBar.onValueChange s v))).1 t
            = ⟨t.progress, false⟩) := by
  intro s v ps
  rw [foldl_onTrackTimeline_of_seeking (ProgressBar.onValueChange s v) rfl ps]
  exact ⟨rfl, rfl, rfl, fun t => rfl⟩

/-- C4: the repeat-mode cycle is the pure function
`next(mode) = order[(indexOf(order, mode) + 1) mod 3]` over the fixed
ordering `[None, List, Track]`, with `next(None) = List`,
`next(List) = Track`, `next(Track) = None`, and `next` cubed is the
identity on every mode. -/
theorem repeat_mode_cycle_pure_function :
    REPEAT_MODE_CYCLE = [AutoRepeatMode.None, AutoRepeatMode.List, AutoRepeatMode.Track] ∧
    nextMode AutoRepeatMode.None = AutoRepeatMode.List ∧
    nextMode AutoRepeatMode.List = AutoRepeatMode.Track ∧
    nextMode AutoRepeatMode.Track = AutoRepeatMode.None ∧
    (∀ m, nextMode m =
      REPEAT_MODE_CYCLE.getD ((REPEAT_MODE_CYCLE.indexOf m + 1) % REPEAT_MODE_CYCLE.length)
        AutoRepeatMode.None) ∧
    (∀ m, nextMode (nextMode (nextMode m)) = m) := by
  refine ⟨rfl, by decide, by decide, by decide, fun m => rfl, fun m => ?_⟩
  cases m <;> decide

/-- C3 counterexample: with the concrete snapshot `controlsAllDisabled`
(every availability flag false), invoking the play/pause dispatch operation
still emits one `toggle_play_pause` event, and invoking `cycleRepeatMode`
still emits one `set_repeat_mode` event — not zero — because the dispatch
operations in `lib/socket-io.ts` never consult the availability flags. -/
theorem disabled_intent_still_emits_once :
    controlsAllDisabled.play_pause_enabled = false ∧
    IOModel.togglePlayPause.length = 1 ∧
    IOModel.togglePlayPause = [⟨"toggle_play_pause", EmitPayload.null⟩] ∧
    controlsAllDisabled.auto_repeat_mode_enabled = false ∧
    (PlayerControls.cycleRepeatMode ⟨some controlsAllDisabled⟩).2 =
      [⟨"set_repeat_mode", EmitPayload.repeatMode AutoRepeatMode.List⟩] ∧
    (PlayerControls.cycleRepeatMode ⟨some controlsAllDisabled⟩).2.length = 1 := by
  refine ⟨rfl, rfl, rfl, rfl, ?_, ?_⟩ <;> decide

/-- C3 (amended): the dispatch operations emit exactly one event whenever
invoked, regardless of the availability flags (`cycleRepeatMode` no-ops only
on a missing snapshot); the availability flags instead gate the UI — the
`PlayerControls` render mounts each control's button exactly when its flag
is true, so no click can invoke an operation whose flag is false. -/
theorem intents_emit_unconditionally_ui_gates_by_flags :
    ∀ c : TrackControls,
      IOModel.togglePlayPause.length = 1 ∧
      IOModel.nextTrack.length = 1 ∧
      IOModel.previousTrack.length = 1 ∧
      IOModel.toggleShuffle.length = 1 ∧
      (∀ m, (IOModel.setRepeatMode m).length = 1) ∧
      (PlayerControls.cycleRepeatMode ⟨some c⟩).2.length = 1 ∧
      (PlayerControls.render true ⟨some c⟩).map RenderedControls.playPauseShown
        = some c.play_pause_enabled ∧
      (PlayerControls.render true ⟨some c⟩).map RenderedControls.nextShown
        = some c.next_enabled ∧
      (PlayerControls.render true ⟨some c⟩).map RenderedControls.prevShown
        = some c.prev_enabled ∧
      (PlayerControls.render true ⟨some c⟩).map RenderedControls.shuffleShown
        = some c.shuffle_enabled ∧
      (PlayerControls.render true ⟨some c⟩).map RenderedControls.repeatShown
        = some c.auto_repeat_mode_enabled ∧
      PlayerControls.render true ⟨none⟩ = none := by
  intro c
  exact ⟨rfl, rfl, rfl, rfl, fun m => rfl, rfl, rfl, rfl, rfl, rfl, rfl, rfl⟩

/-- Helper: every handler the legacy `App.tsx` session registers emits
nothing, so the whole inbound stream contributes no emissions. -/
theorem appTsx_handler_fold_nil (inbound : List AppTsx.Inbound) :
    inbound.foldr (fun e acc => AppTsx.handlerEmits e ++ acc) [] = [] := by
  induction inbound with
  | nil => rfl
  | cons e es ih =>
      rw [List.foldr_cons, ih]
      cases e <;> rfl

/-- Helper: every handler the current-generation `App` session registers
emits nothing, so the whole inbound stream contributes no emissions. -/
theorem app_handler_fold_nil (inbound : List App.Inbound) :
    inbound.foldr (fun e acc => App.handlerEmits e ++ acc) [] = [] := by
  induction inbound with
  | nil => rfl
  | cons e es ih =>
      rw [List.foldr_cons, ih]
      cases e <;> rfl

/-- C5 counterexample: an inbound stream with two transitions into
`Connected` (initial connect, disconnect, reconnect).  The legacy `App.tsx`
session emits `get_media_details` once in total — not once per transition,
which would be twice — because the emission happens in the mount effect and
no connect handler is registered; the current-generation `App`
(`src/unnamed/part_003`) never emits it at all. -/
theorem reconnect_does_not_reemit_get_media_details :
    countEvent events.GET_MEDIA_DETAILS
        (AppTsx.sessionEmits
          [AppTsx.Inbound.connected, AppTsx.Inbound.disconnected, AppTsx.Inbound.connected])
      = 1 ∧
    countEvent events.GET_MEDIA_DETAILS
        (AppTsx.sessionEmits
          [AppTsx.Inbound.connected, AppTsx.Inbound.disconnected, AppTsx.Inbound.connected])
      ≠ 2 ∧
    countEvent events.GET_MEDIA_DETAILS
        (App.sessionEmits
          [App.Inbound.connected, App.Inbound.disconnected, App.Inbound.connected])
      = 0 := by
  refine ⟨?_, ?_, ?_⟩ <;> decide

/-- C5 (amended): the legacy `App.tsx` session emits `get_media_details`
exactly once per mounted session — in the mount effect, independently of
how many connection transitions the transport performs — and the
current-generation `App` session never emits it. -/
theorem get_media_details_once_per_session :
    ∀ (i1 : List AppTsx.Inbound) (i2 : List App.Inbound),
      countEvent events.GET_MEDIA_DETAILS (AppTsx.sessionEmits i1) = 1 ∧
      countEvent events.GET_MEDIA_DETAILS (App.sessionEmits i2) = 0 := by
  intro i1 i2
  constructor
  · show countEvent events.GET_MEDIA_DETAILS
      (IOModel.getMediaDetails ++ i1.foldr (fun e acc => AppTsx.handlerEmits e ++ acc) []) = 1
    rw [appTsx_handler_fold_nil i1]
    decide
  · show countEvent events.GET_MEDIA_DETAILS
      (i2.foldr (fun e acc => App.handlerEmits e ++ acc) []) = 0
    rw [app_handler_fold_nil i2]
    rfl

/-- C6: both stores replace their whole value with the pushed payload: after
a `track_info` push the `track` store equals the new payload in every field
and is independent of the previous state, the last of a burst of pushes
wins, and the same holds for the `controls` store under `track_controls`
pushes. -/
theorem stores_full_replacement_latest_payload :
    (∀ (s : AppState) (t : TrackInfo),
        (App.onTrackInfo s t).track = some t ∧
        (App.onTrackInfo s t).track.map TrackInfo.title = some t.title ∧
        (App.onTrackInfo s t).track.map TrackInfo.artist = some t.artist ∧
        (App.onTrackInfo s t).track.map TrackInfo.album = some t.album ∧
        (App.onTrackInfo s t).track.map TrackInfo.duration = some t.duration ∧
        (App.onTrackInfo s t).track.map TrackInfo.thumbnail = some t.thumbnail ∧
        (App.onTrackInfo s t).track.map TrackInfo.accent_color = some t.accent_color ∧
        (App.onTrackInfo s t).primaryHue = some t.accent_color) ∧
    (∀ (s1 s2 : AppState) (t : TrackInfo),
        (App.onTrackInfo s1 t).track = (App.onTrackInfo s2 t).track) ∧
    (∀ (s : AppState) (ps : List TrackInfo) (t : TrackInfo),
        ((ps ++ [t]).foldl App.onTrackInfo s).track = some t) ∧
    (∀ (s : PlayerControlsState) (c : TrackControls),
        (PlayerControls.onTrackControls s c).controls = some c) ∧
    (∀ (s1 s2 : PlayerControlsState) (c : TrackControls),
        PlayerControls.onTrackControls s1 c = PlayerControls.onTrackControls s2 c) ∧
    (∀ (s : PlayerControlsState) (cs : List TrackControls) (c : TrackControls),
        ((cs ++ [c]).foldl PlayerControls.onTrackControls s).controls = some c) := by
  refine ⟨fun s t => ⟨rfl, rfl, rfl, rfl, rfl, rfl, rfl, rfl⟩,
          fun s1 s2 t => rfl, ?_, fun s c => rfl, fun s1 s2 c => rfl, ?_⟩
  · intro s ps t
    rw [List.foldl_append]
    rfl
  · intro s cs c
    rw [List.foldl_append]
    rfl

/-- C7: with a controls snapshot present, `cycleRepeatMode` emits exactly one
`set_repeat_mode` event carrying the successor of the snapshot's mode,
leaves the whole local store (hence the displayed repeat mode) unchanged,
and the displayed mode changes only when the next `track_controls` push
replaces the store. -/
theorem cycle_repeat_emits_without_local_update :
    ∀ (s : PlayerControlsState) (c : TrackControls), s.controls = some c →
      (PlayerControls.cycleRepeatMode s).1 = s ∧
      (PlayerControls.cycleRepeatMode s).2 =
        [⟨events.SET_REPEAT_MODE, EmitPayload.repeatMode (nextMode c.auto_repeat_mode)⟩] ∧
      PlayerControls.displayedRepeatMode (PlayerControls.cycleRepeatMode s).1 =
        PlayerControls.displayedRepeatMode s ∧
      (∀ c' : TrackControls,
          PlayerControls.displayedRepeatMode
              (PlayerControls.onTrackControls (PlayerControls.cycleRepeatMode s).1 c') =
            some c'.auto_repeat_mode) := by
  intro s c h
  rcases s with ⟨cs⟩
  have h' : cs = some c := h
  subst h'
  exact ⟨rfl, rfl, rfl, fun c' => rfl⟩

/-- Witness for C7 at the concrete snapshot `sampleControls`. -/
theorem cycle_repeat_emits_without_local_update_witness :
    (PlayerControls.cycleRepeatMode ⟨some sampleControls⟩).2 =
      [⟨events.SET_REPEAT_MODE,
        EmitPayload.repeatMode (nextMode sampleControls.auto_repeat_mode)⟩] :=
  (cycle_repeat_emits_without_local_update ⟨some sampleControls⟩ sampleControls rfl).2.1

/-- C8: the debouncer starts `Active` with a timer armed for `t0 + T`; every
qualifying input — from either state — forces `Active` and re-arms the timer
for `t + T`; if the armed timer is still pending at its deadline (no input
re-armed it), its firing transitions the state to `Inactive`; in particular
an input at `t` followed by the undisturbed elapse at `t + T` ends
`Inactive`. -/
theorem inactivity_tracker_transitions :
    ∀ (T t0 : Nat),
      inactivityInit T t0 = ⟨true, some (t0 + T)⟩ ∧
      (∀ (s : InactivityState) (t : Nat),
          inactivityStep T s (InactivityEvent.input t) = ⟨true, some (t + T)⟩) ∧
      (∀ (s : InactivityState) (t : Nat), s.deadline = some t →
          inactivityStep T s (InactivityEvent.elapse t) = ⟨false, none⟩) ∧
      (∀ (s : InactivityState) (t : Nat),
          inactivityStep T (inactivityStep T s (InactivityEvent.input t))
              (InactivityEvent.elapse (t + T)) = ⟨false, none⟩) := by
  intro T t0
  refine ⟨rfl, fun s t => rfl, ?_, ?_⟩
  · intro s t h
    simp [inactivityStep, h]
  · intro s t
    simp [inactivityStep, resetTimer]

/-- Witness for C8: with timeout 10, a pending timer with deadline 15 fires
at 15 and the state becomes `Inactive`. -/
theorem inactivity_tracker_transitions_witness :
    inactivityStep 10 ⟨true, some 15⟩ (InactivityEvent.elapse 15) = ⟨false, none⟩ :=
  (inactivity_tracker_transitions 10 0).2.2.1 ⟨true, some 15⟩ 15 rfl

/-- C9: a `track_timeline` push leaves the `track` store — and with it the
`duration` prop fed to `ProgressBar` — unchanged, preserves the gesture
flag, and updates only the progress value (when no gesture is in progress);
the duration comes from `track_info` pushes, which set the prop to the
pushed `duration` field. -/
theorem track_timeline_leaves_duration_unchanged :
    ∀ (s : AppState) (tl : TrackTimeline),
      (App.onTrackTimeline s tl).track = s.track ∧
      App.durationProp (App.onTrackTimeline s tl) = App.durationProp s ∧
      (App.onTrackTimeline s tl).progressBar.seeking = s.progressBar.seeking ∧
      (s.progressBar.seeking = false →
          (App.onTrackTimeline s tl).progressBar.progress = tl.progress) ∧
      (s.progressBar.seeking = true → App.onTrackTimeline s tl = s) ∧
      (∀ t : TrackInfo, App.durationProp (App.onTrackInfo s t) = some t.duration) := by
  intro s tl
  refine ⟨rfl, rfl, ?_, ?_, ?_, fun t => rfl⟩
  · simp only [App.onTrackTimeline, ProgressBar.onTrackTimeline]
    split <;> rfl
  · intro h
    simp [App.onTrackTimeline, ProgressBar.onTrackTimeline, h]
  · intro h
    simp [App.onTrackTimeline, ProgressBar.onTrackTimeline, h]

/-- Witness for C9 at concrete states: a push of 5000 updates the idle
progress bar, and leaves a mid-gesture state entirely untouched. -/
theorem track_timeline_leaves_duration_unchanged_witness :
    (App.onTrackTimeline ⟨some sampleTrack, some 200, ⟨1000, false⟩⟩
        ⟨5000⟩).progressBar.progress = 5000 ∧
    App.onTrackTimeline ⟨some sampleTrack, some 200, ⟨1000, true⟩⟩ ⟨5000⟩ =
      ⟨some sampleTrack, some 200, ⟨1000, true⟩⟩ :=
  ⟨(track_timeline_leaves_duration_unchanged
      ⟨some sampleTrack, some 200, ⟨1000, false⟩⟩ ⟨5000⟩).2.2.2.1 rfl,
   (track_timeline_leaves_duration_unchanged
      ⟨some sampleTrack, some 200, ⟨1000, true⟩⟩ ⟨5000⟩).2.2.2.2.1 rfl⟩

/-- C10: before the first snapshot (store still `null`), `cycleRepeatMode`
returns without computing a successor or dispatching: the state is
unchanged and zero events are emitted — in the current-generation
`PlayerControls` and likewise in the legacy `App.tsx` version. -/
theorem cycle_repeat_noop_before_first_snapshot :
    ∀ s : PlayerControlsState, s.controls = none →
      PlayerControls.cycleRepeatMode s = (s, []) ∧
      AppTsx.cycleRepeatMode none = [] := by
  intro s h
  rcases s with ⟨cs⟩
  have h' : cs = none := h
  subst h'
  exact ⟨rfl, rfl⟩

/-- Witness for C10 at the empty store. -/
theorem cycle_repeat_noop_before_first_snapshot_witness :
    PlayerControls.cycleRepeatMode ⟨none⟩ = (⟨none⟩, []) ∧
    AppTsx.cycleRepeatMode none = [] :=
  cycle_repeat_noop_before_first_snapshot ⟨none⟩ rfl
